import Mathlib

/-!
Verification of the guideline evaluation, trend detection and safety-filter
pipeline of the preventive-medicine server.

The development shallowly embeds the TypeScript sources:
  - `packages/server/src/guidelines/safety-filter.ts`
  - `packages/server/src/guidelines/evaluator.ts`
  - `packages/server/src/services/trend.ts`
JavaScript numbers are modelled as exact rationals, strings as Lean strings,
and the regular expressions of the safety filter by a small backtracking
matcher with JavaScript priority semantics (leftmost position, left-first
alternation, greedy quantifiers).
-/

namespace PM

/-! ## Safety filter (`safety-filter.ts`)

The seven `DISALLOWED_PATTERNS` and three `REPLACEMENT_PHRASES` regexes use
only literals, alternation, optional groups, and the classes `\s` / `\w`
under single-character quantifiers, so a small matcher suffices.  All the
patterns carry the `i` flag; matching is done on a `Char.toLower` image of
the input (the patterns are ASCII), slicing on the original characters. -/

/-- JavaScript `\s` (the regexes are tested against own-output text). -/
def isJsSpace (c : Char) : Bool :=
  c = ' ' || c = '\t' || c = '\n' || c.val = 11 || c.val = 12 || c = '\r' ||
  c.val = 0xa0 || c.val = 0x1680 || (0x2000 ≤ c.val && c.val ≤ 0x200a) ||
  c.val = 0x2028 || c.val = 0x2029 || c.val = 0x202f || c.val = 0x205f ||
  c.val = 0x3000 || c.val = 0xfeff

/-- JavaScript `\w` = `[A-Za-z0-9_]`. -/
def isWordChar (c : Char) : Bool :=
  (('a' ≤ c && c ≤ 'z') || ('A' ≤ c && c ≤ 'Z') || ('0' ≤ c && c ≤ '9') || c = '_')

/-- Character classes occurring in the filter's patterns. -/
inductive CClass
  | ws
  | word
deriving DecidableEq

def CClass.test : CClass → Char → Bool
  | .ws, c => isJsSpace c
  | .word, c => isWordChar c

/-- Regular expressions as used by `DISALLOWED_PATTERNS`: literals,
sequencing, alternation, a single character-class token, and Kleene star
restricted to a character class (the sources only quantify `\s` and `\w`). -/
inductive RE
  | eps
  | lit (s : List Char)
  | cls (k : CClass)
  | seq (r1 r2 : RE)
  | alt (r1 r2 : RE)
  | starCls (k : CClass)

/-- Length of the maximal run of class-`k` characters. -/
def runLength (p : Char → Bool) : List Char → Nat
  | [] => 0
  | c :: cs => if p c then runLength p cs + 1 else 0

/-- `n, n-1, …, 0`: the candidate lengths of a greedy star, best first. -/
def countdown : Nat → List Nat
  | 0 => [0]
  | n + 1 => (n + 1) :: countdown n

/-- All lengths of prefixes of `cs` matched by `r`, in JavaScript
backtracking priority order (left alternative first, greedy quantifiers). -/
def RE.matchLens : RE → List Char → List Nat
  | .eps, _ => [0]
  | .lit s, cs => if s.isPrefixOf cs then [s.length] else []
  | .cls k, cs =>
    match cs with
    | [] => []
    | c :: _ => if k.test c then [1] else []
  | .seq r1 r2, cs =>
    (r1.matchLens cs).flatMap fun n1 => (r2.matchLens (cs.drop n1)).map (n1 + ·)
  | .alt r1 r2, cs => r1.matchLens cs ++ r2.matchLens cs
  | .starCls k, cs => countdown (runLength k.test cs)

/-- Leftmost match of `r` in `cs` starting at offset `i`: start and length. -/
def findMatchFrom (r : RE) (i : Nat) : List Char → Option (Nat × Nat)
  | [] =>
    match r.matchLens [] with
    | n :: _ => some (i, n)
    | [] => none
  | c :: rest =>
    match r.matchLens (c :: rest) with
    | n :: _ => some (i, n)
    | [] => findMatchFrom r (i + 1) rest

/-- `pattern.test(text)` for a case-insensitive pattern. -/
def reTest (r : RE) (cs : List Char) : Bool :=
  (findMatchFrom r 0 (cs.map Char.toLower)).isSome

/-- `text.replace(pattern, repl)` for a non-global pattern and a plain
replacement string: only the first match is replaced. -/
def reReplaceFirst (r : RE) (repl : List Char) (cs : List Char) : List Char :=
  match findMatchFrom r 0 (cs.map Char.toLower) with
  | none => cs
  | some (i, n) => cs.take i ++ repl ++ cs.drop (i + n)

def rlit (s : String) : RE := RE.lit s.data

def ralts : List RE → RE
  | [] => RE.eps
  | [r] => r
  | r :: rest => RE.alt r (ralts rest)

def rcat : List RE → RE
  | [] => RE.eps
  | [r] => r
  | r :: rest => RE.seq r (rcat rest)

def ropt (r : RE) : RE := RE.alt r RE.eps

def rws : RE := RE.cls CClass.ws
def rwsStar : RE := RE.starCls CClass.ws
def rwsPlus : RE := RE.seq rws rwsStar
def rwordPlus : RE := RE.seq (RE.cls CClass.word) (RE.starCls CClass.word)

/-- `/you (?:have|likely have|probably have|are diagnosed with)\s/i` -/
def PAT1 : RE :=
  rcat [rlit "you ",
        ralts [rlit "have", rlit "likely have", rlit "probably have",
               rlit "are diagnosed with"], rws]

/-- `/you (?:should|must|need to) (?:take|start|begin|use)\s+\w+\s*(?:medication|drug|prescription|pill)/i` -/
def PAT2 : RE :=
  rcat [rlit "you ", ralts [rlit "should", rlit "must", rlit "need to"],
        rlit " ", ralts [rlit "take", rlit "start", rlit "begin", rlit "use"],
        rwsPlus, rwordPlus, rwsStar,
        ralts [rlit "medication", rlit "drug", rlit "prescription", rlit "pill"]]

/-- `/go to (?:the )?(?:ER|emergency room|hospital)\s*(?:immediately|now|right away)/i` -/
def PAT3 : RE :=
  rcat [rlit "go to ", ropt (rlit "the "),
        ralts [rlit "er", rlit "emergency room", rlit "hospital"],
        rwsStar, ralts [rlit "immediately", rlit "now", rlit "right away"]]

/-- `/(?:prescribe|prescribing|prescription for)\s/i` -/
def PAT4 : RE :=
  rcat [ralts [rlit "prescribe", rlit "prescribing", rlit "prescription for"], rws]

/-- `/(?:diagnosed? (?:with|as))\s/i` -/
def PAT5 : RE :=
  rcat [rlit "diagnose", ropt (rlit "d"), rlit " ", ralts [rlit "with", rlit "as"], rws]

/-- `/you are (?:suffering from|afflicted with)\s/i` -/
def PAT6 : RE :=
  rcat [rlit "you are ", ralts [rlit "suffering from", rlit "afflicted with"], rws]

/-- `/(?:start|begin|take) (?:this )?medication/i` -/
def PAT7 : RE :=
  rcat [ralts [rlit "start", rlit "begin", rlit "take"], rlit " ",
        ropt (rlit "this "), rlit "medication"]

def DISALLOWED_PATTERNS : List RE := [PAT1, PAT2, PAT3, PAT4, PAT5, PAT6, PAT7]

/-- Does the (lower-cased) literal `pat` occur at the head of `cs`,
compared case-insensitively? -/
def litAt (pat cs : List Char) : Bool := pat.isPrefixOf (cs.map Char.toLower)

/-- Worker for `replaceAllLit`; the fuel only serves to present the
recursion structurally, every step consumes at least one character, so with
`fuel = length` it is never exhausted. -/
def replaceAllLitGo (pat repl : List Char) : Nat → List Char → List Char
  | _, [] => []
  | 0, l => l
  | fuel + 1, c :: cs =>
    if pat ≠ [] ∧ litAt pat (c :: cs) then
      repl ++ replaceAllLitGo pat repl fuel ((c :: cs).drop pat.length)
    else
      c :: replaceAllLitGo pat repl fuel cs

/-- `text.replace(/lit/gi, repl)` for a plain non-empty literal pattern:
every case-insensitive occurrence is replaced, scanning left to right and
resuming after each replaced occurrence. -/
def replaceAllLit (pat repl l : List Char) : List Char :=
  replaceAllLitGo pat repl l.length l

/-- The match of `/you have\s+(\w+)/i` at the head of `s`, if any: the
total match length together with the `$1` capture (taken from the original,
uncased characters).  `\s+` and `\w+` are greedy over disjoint classes, so
the parse is unique. -/
def matchYouHaveAt (s : List Char) : Option (Nat × List Char) :=
  if litAt "you have".data s then
    let rest := s.drop 8
    let k := runLength isJsSpace rest
    if k = 0 then none
    else
      let w := (rest.drop k).takeWhile isWordChar
      if w.isEmpty then none else some (8 + k + w.length, w)
  else none

/-- Worker for `replaceYouHave`; as in `replaceAllLitGo` the fuel is only a
structural-recursion device and is never exhausted (a match consumes at
least 10 characters). -/
def replaceYouHaveGo : Nat → List Char → List Char
  | _, [] => []
  | 0, l => l
  | fuel + 1, c :: cs =>
    match matchYouHaveAt (c :: cs) with
    | some (n, w) =>
      "your data shows signals sometimes associated with ".data ++ w ++
        replaceYouHaveGo fuel ((c :: cs).drop n)
    | none => c :: replaceYouHaveGo fuel cs

/-- `text.replace(/you have\s+(\w+)/gi, 'your data shows signals sometimes associated with $1')`. -/
def replaceYouHave (l : List Char) : List Char :=
  replaceYouHaveGo l.length l

/-- `filterSafetyOutput` from `safety-filter.ts`: the ordered
`REPLACEMENT_PHRASES` rewrites, then one pass over `DISALLOWED_PATTERNS`
replacing (only) the first remaining match of each with the redaction
marker. -/
def filterSafetyOutput (text : String) : String :=
  let f1 := replaceYouHave text.data
  let f2 := replaceAllLit "you should take".data
    "you may wish to discuss with a clinician about".data f1
  let f3 := replaceAllLit "go to the er".data
    "please contact a healthcare professional promptly".data f2
  String.mk (DISALLOWED_PATTERNS.foldl
    (fun acc p =>
      if reTest p acc then reReplaceFirst p "[content removed for safety]".data acc
      else acc) f3)

/-- `isSafeOutput` from `safety-filter.ts`. -/
def isSafeOutput (text : String) : Bool :=
  !(DISALLOWED_PATTERNS.any fun p => reTest p text.data)

/-- C1: the claim states that `isSafeOutput (filterSafetyOutput text)` is
true for every input.  It fails: the redaction pass calls
`filtered.replace(pattern, …)` with a non-global pattern, so only the first
occurrence of a disallowed phrase is redacted.  On the input
`"prescribe a prescribe a"` the second occurrence of `prescribe␣` survives
the filter and still matches `/(?:prescribe|prescribing|prescription for)\s/i`,
so the filter's own output fails its own safety check. -/
theorem c1_filter_not_self_stable :
    isSafeOutput (filterSafetyOutput "prescribe a prescribe a") = false ∧
      filterSafetyOutput "prescribe a prescribe a" =
        "[content removed for safety]a prescribe a" := by
  decide

/-! ## Guideline evaluator (`evaluator.ts`)

The evaluator is embedded as a pure function of the data its database and
loader calls return: the user row, the guideline list, and the
observation snapshot (which `getObservationsByUser` returns ordered by
timestamp descending).  `calculateAge` calls `new Date()`; the ambient
clock reading is made an explicit `clockNow` parameter of the embedding.
JavaScript truthiness tests (`ageMin &&`, `!sex`, `!guideline.trigger.code`,
`guideline.citation ? … : …`) are mirrored by explicit `truthy*` helpers. -/

/-- The year/month/day triple that `calculateAge` extracts from a `Date`
(`getFullYear`/`getMonth`/`getDate`). -/
structure SimpleDate where
  year : Int
  month : Int
  day : Int
deriving DecidableEq, Repr

/-- `calculateAge` from `evaluator.ts`.  The source reads `now` from
`new Date()` — the global clock — so the embedding takes the clock reading
as the second argument. -/
def calculateAge (dob now : SimpleDate) : Int :=
  let age := now.year - dob.year
  let monthDiff := now.month - dob.month
  if monthDiff < 0 ∨ (monthDiff = 0 ∧ now.day < dob.day) then age - 1 else age

/-- The fields of the user row the evaluator reads; `sex` is `none` when
the column is null. -/
structure User where
  dateOfBirth : Option SimpleDate
  sex : Option String
deriving DecidableEq, Repr

/-- An observation row as returned by `getObservationsByUser`. -/
structure Observation where
  category : String
  code : String
  displayName : String
  value : ℚ
  unit : String
  timestamp : ℚ
deriving DecidableEq, Repr

structure AppliesTo where
  ageMin : Option ℚ
  ageMax : Option ℚ
  sex : Option (List String)
deriving DecidableEq, Repr

structure Trigger where
  category : String
  code : Option String
deriving DecidableEq, Repr

structure RefRange where
  min : Option ℚ
  max : Option ℚ
  unit : String
  label : String
deriving DecidableEq, Repr

/-- A guideline rule (`GuidelineSchema` in `packages/shared`). -/
structure Guideline where
  id : String
  source : String
  appliesTo : AppliesTo
  trigger : Trigger
  recommendation : String
  citation : Option String
  referenceRange : Option RefRange
deriving DecidableEq, Repr

/-- The record passed to `createRecommendation` (minus `userId` and the
database-generated identifier). -/
structure Recommendation where
  text : String
  category : String
  guidelineSource : String
  guidelineId : String
  citations : List String
  priority : String
deriving DecidableEq, Repr

/-- The record passed to `createRiskSignal` (minus `userId` and the
database-generated identifier). -/
structure RiskSignal where
  factor : String
  displayName : String
  currentValue : ℚ
  unit : String
  referenceRangeMin : Option ℚ
  referenceRangeMax : Option ℚ
  referenceLabel : String
  guidelineSource : String
  guidelineId : String
  severity : String
deriving DecidableEq, Repr

structure EvalResult where
  summary : List String
  recommendations : List Recommendation
  riskSignals : List RiskSignal
  questions : List String
  disclaimer : String
deriving DecidableEq, Repr

/-- `DISCLAIMER` from `packages/shared/src/constants/disclaimer.ts`. -/
def DISCLAIMER : String :=
  "This is educational and not medical diagnosis or treatment. For clinical decisions, consult a qualified healthcare professional."

/-- JavaScript truthiness of a possibly-absent number: `undefined` and `0`
are falsy. -/
def truthyNum : Option ℚ → Bool
  | some x => decide (x ≠ 0)
  | none => false

/-- JavaScript truthiness of a possibly-absent string: `undefined`, `null`
and `""` are falsy. -/
def truthyStr : Option String → Bool
  | some s => decide (s ≠ "")
  | none => false

/-- JavaScript truthiness of `age : number | null` in `if (!age) …`:
`null` and `0` are falsy. -/
def truthyAge : Option Int → Bool
  | some a => decide (a ≠ 0)
  | none => false

/-- The age-eligibility `continue` guards:
`if (guideline.appliesTo.ageMin && age < guideline.appliesTo.ageMin) continue;`
`if (guideline.appliesTo.ageMax && age > guideline.appliesTo.ageMax) continue;`. -/
def ageExcluded (a : Int) (g : Guideline) : Bool :=
  (truthyNum g.appliesTo.ageMin && decide ((a : ℚ) < g.appliesTo.ageMin.getD 0)) ||
  (truthyNum g.appliesTo.ageMax && decide ((a : ℚ) > g.appliesTo.ageMax.getD 0))

/-- The sex-eligibility `continue` guard:
`if (guideline.appliesTo.sex && sex) { if (!guideline.appliesTo.sex.includes(sex)) continue; }`. -/
def sexExcluded (sex : Option String) (g : Guideline) : Bool :=
  match g.appliesTo.sex, sex with
  | some allow, some s => decide (s ≠ "") && !(allow.contains s)
  | _, _ => false

/-- A guideline survives the eligibility filters (none of the three
`continue` statements fires). -/
def survives (age : Option Int) (sex : Option String) (g : Guideline) : Bool :=
  !((match age with
     | some a => ageExcluded a g
     | none => false) || sexExcluded sex g)

/-- The `relevantObs` filter predicate:
`obs.category === guideline.trigger.category && (!guideline.trigger.code || obs.code === guideline.trigger.code)`. -/
def matchesTrigger (g : Guideline) (obs : Observation) : Bool :=
  obs.category = g.trigger.category &&
    (!truthyStr g.trigger.code || obs.code = g.trigger.code.getD "")

/-- The record handed to `createRecommendation` for one surviving rule. -/
def mkRecommendation (g : Guideline) : Recommendation where
  text := filterSafetyOutput g.recommendation
  category := g.trigger.category
  guidelineSource := g.source
  guidelineId := g.id
  citations :=
    match g.citation with
    | some c => if c = "" then [] else [c]
    | none => []
  priority := "medium"

/-- The record handed to `createRiskSignal`; `factor` is
`guideline.trigger.code || guideline.trigger.category`. -/
def mkRiskSignal (g : Guideline) (rr : RefRange) (obs : Observation) : RiskSignal where
  factor := if truthyStr g.trigger.code then g.trigger.code.getD "" else g.trigger.category
  displayName := obs.displayName
  currentValue := obs.value
  unit := obs.unit
  referenceRangeMin := rr.min
  referenceRangeMax := rr.max
  referenceLabel := rr.label
  guidelineSource := g.source
  guidelineId := g.id
  severity := "watch"

/-- The risk signals the loop body emits for one surviving rule:
`relevantObs[0]` is tested against the reference range when both exist. -/
def signalsFor (observations : List Observation) (g : Guideline) : List RiskSignal :=
  match observations.filter (matchesTrigger g), g.referenceRange with
  | latestObs :: _, some rr =>
    let isOutOfRange :=
      (rr.min.isSome && decide (latestObs.value < rr.min.getD 0)) ||
      (rr.max.isSome && decide (latestObs.value > rr.max.getD 0))
    if isOutOfRange then [mkRiskSignal g rr latestObs] else []
  | _, _ => []

/-- The missing-data questions the loop body pushes for one surviving rule
(`relevantObs.length === 0 && guideline.trigger.code`). -/
def questionsFor (observations : List Observation) (g : Guideline) : List String :=
  if (observations.filter (matchesTrigger g)).isEmpty && truthyStr g.trigger.code then
    ["No " ++ g.trigger.code.getD "" ++
      " data found. Uploading this information would help evaluate " ++
      g.source ++ " guidelines."]
  else []

/-- The question list as accumulated by `questions.push(…)`: the three
missing-data checks before the loop, then the per-rule questions in rule
order. -/
def collectedQuestions (age : Option Int) (sex : Option String)
    (observations : List Observation) (surviving : List Guideline) : List String :=
  (if !truthyAge age then
    ["Date of birth is needed for age-based screening recommendations."] else []) ++
  (if !truthyStr sex then
    ["Biological sex helps personalize screening guidelines."] else []) ++
  (if observations.isEmpty then
    ["No health data uploaded yet. Upload labs, vitals, or other health records to get personalized recommendations."]
   else []) ++
  surviving.flatMap (questionsFor observations)

/-- `[...new Set(questions)]`: deduplicate by exact text, keeping the first
occurrence of each, in first-seen order. -/
def dedupFirst : List String → List String
  | [] => []
  | q :: rest => q :: dedupFirst (rest.filter fun x => x ≠ q)
termination_by l => l.length
decreasing_by
  have := List.length_filter_le (fun x => x ≠ q) rest
  simp only [List.length_cons]
  omega

/-- The pure core of `evaluateGuidelines`, as a function of the computed
age, the user's sex, the loaded guidelines and the observation snapshot. -/
def evaluateCore (age : Option Int) (sex : Option String)
    (guidelines : List Guideline) (observations : List Observation) : EvalResult :=
  let surviving := guidelines.filter (survives age sex)
  let matchedRecommendations := surviving.map mkRecommendation
  let matchedRiskSignals := surviving.flatMap (signalsFor observations)
  let uniqueQuestions :=
    (dedupFirst (collectedQuestions age sex observations surviving)).take 5
  { summary :=
      ["Evaluated " ++ toString guidelines.length ++
        " preventive guidelines for your profile.",
       "Found " ++ toString matchedRecommendations.length ++
        " applicable recommendations.",
       if matchedRiskSignals.length > 0 then
         "Identified " ++ toString matchedRiskSignals.length ++
          " values outside reference ranges for discussion with a clinician."
       else "No values outside reference ranges detected."]
    recommendations := matchedRecommendations
    riskSignals := matchedRiskSignals
    questions := uniqueQuestions
    disclaimer := DISCLAIMER }

/-- The age the evaluator computes:
`user.dateOfBirth ? calculateAge(user.dateOfBirth) : null`, with
`calculateAge` reading the global clock (`clockNow`). -/
def computedAge (user : User) (clockNow : SimpleDate) : Option Int :=
  match user.dateOfBirth with
  | some dob => some (calculateAge dob clockNow)
  | none => none

/-- `evaluateGuidelines` from `evaluator.ts`, for a found user, as a
function of the data its collaborators return.  `clockNow` is the reading
of the global clock (`new Date()`) that `calculateAge` performs. -/
def evaluateGuidelines (user : User) (guidelines : List Guideline)
    (observations : List Observation) (clockNow : SimpleDate) : EvalResult :=
  evaluateCore (computedAge user clockNow) user.sex guidelines observations

/-- Fixture: the sample user of the evaluator's test-suite (born
1985-06-15; `month := 5` is the 0-based `getMonth` value for June). -/
def sampleUser : User := { dateOfBirth := some ⟨1985, 5, 15⟩, sex := some "male" }

/-- Fixture: an age-gated rule (ages 40 to 74) with a safe recommendation
text and no reference range. -/
def ageGatedRule : Guideline where
  id := "rule-40-74"
  source := "USPSTF"
  appliesTo := { ageMin := some 40, ageMax := some 74, sex := none }
  trigger := { category := "screening", code := none }
  recommendation := "Periodic screening may be discussed."
  citation := none
  referenceRange := none

/-- C2, counterexample: the claim says the age computation depends only on
an explicitly supplied `now`, never on a global clock.  But
`calculateAge` calls `new Date()`: with the profile, observation snapshot
and rule set all identical, evaluating under a 2020 clock reading excludes
the age-40 rule (the user is 35) while a 2030 clock reading includes it
(the user is 45), so the output depends on the global clock. -/
theorem c2_clock_dependence :
    calculateAge ⟨1985, 5, 15⟩ ⟨2020, 6, 1⟩ = 35 ∧
    calculateAge ⟨1985, 5, 15⟩ ⟨2030, 6, 1⟩ = 45 ∧
    (evaluateGuidelines sampleUser [ageGatedRule] [] ⟨2020, 6, 1⟩).recommendations = [] ∧
    (evaluateGuidelines sampleUser [ageGatedRule] [] ⟨2030, 6, 1⟩).recommendations ≠ [] := by
  decide

/-- C2, amended: evaluation is pure and deterministic given (profile,
observations, rules) **and the global-clock reading made inside
`calculateAge`**: the clock reading influences the result only through the
computed age, and two runs agreeing on computed age, sex, rules and
observation snapshot produce identical recommendation, risk-signal and
question sets. -/
theorem c2_deterministic_given_clock (u₁ u₂ : User) (gs₁ gs₂ : List Guideline)
    (obs₁ obs₂ : List Observation) (d₁ d₂ : SimpleDate)
    (hage : computedAge u₁ d₁ = computedAge u₂ d₂) (hsex : u₁.sex = u₂.sex)
    (hgs : gs₁ = gs₂) (hobs : obs₁ = obs₂) :
    evaluateGuidelines u₁ gs₁ obs₁ d₁ = evaluateGuidelines u₂ gs₂ obs₂ d₂ := by
  unfold evaluateGuidelines
  rw [hage, hsex, hgs, hobs]

/-- Witness for C2: two distinct users evaluated under two distinct clock
readings but with equal computed ages give identical results. -/
theorem c2_deterministic_given_clock_witness :
    evaluateGuidelines sampleUser [ageGatedRule] [] ⟨2030, 6, 1⟩ =
      evaluateGuidelines { dateOfBirth := some ⟨1990, 5, 15⟩, sex := some "male" }
        [ageGatedRule] [] ⟨2035, 6, 1⟩ :=
  c2_deterministic_given_clock _ _ _ _ _ _ _ _ (by decide) (by decide) rfl rfl

/-- Fixture for C3: a rule that specifies `ageMax = 0`. -/
def zeroMaxRule : Guideline where
  id := "rule-max-0"
  source := "SRC"
  appliesTo := { ageMin := none, ageMax := some 0, sex := none }
  trigger := { category := "screening", code := none }
  recommendation := "Infant screening."
  citation := none
  referenceRange := none

/-- C3, counterexample: the claim says that when age is known and the rule
specifies `ageMax`, the rule is excluded exactly when the age lies outside
the range.  A rule with `ageMax = 0` and a known age of 50 is outside the
range, yet the guard `guideline.appliesTo.ageMax && age > …` treats the
bound `0` as falsy and never tests it, so the rule survives. -/
theorem c3_zero_bound_not_excluding :
    zeroMaxRule.appliesTo.ageMax = some 0 ∧ (50 : ℚ) > 0 ∧
      survives (some 50) (some "male") zeroMaxRule = true := by
  decide

/-- C3, amended: with a known age, a rule is excluded exactly when it
specifies a **non-zero** `ageMin` the age is below, or a **non-zero**
`ageMax` the age is above (a zero bound is falsy in JavaScript and is
ignored); with a known non-empty sex and a sex allow-list, exactly when the
sex is not a member; unknown age or sex never excludes a rule. -/
theorem ageExcluded_iff (a : Int) (g : Guideline) :
    ageExcluded a g = true ↔
      (∃ m, g.appliesTo.ageMin = some m ∧ m ≠ 0 ∧ (a : ℚ) < m) ∨
      (∃ m, g.appliesTo.ageMax = some m ∧ m ≠ 0 ∧ (a : ℚ) > m) := by
  cases hmin : g.appliesTo.ageMin <;> cases hmax : g.appliesTo.ageMax <;>
    simp [ageExcluded, truthyNum, hmin, hmax]

theorem sexExcluded_iff (sex : Option String) (g : Guideline) :
    sexExcluded sex g = true ↔
      ∃ allow s, g.appliesTo.sex = some allow ∧ sex = some s ∧ s ≠ "" ∧
        s ∉ allow := by
  cases hallow : g.appliesTo.sex <;> cases sex <;>
    simp [sexExcluded, hallow, List.elem_iff]

theorem c3_eligibility_characterization (age : Option Int) (sex : Option String)
    (g : Guideline) :
    survives age sex g = false ↔
      ((∃ a, age = some a ∧
          ((∃ m, g.appliesTo.ageMin = some m ∧ m ≠ 0 ∧ (a : ℚ) < m) ∨
           (∃ m, g.appliesTo.ageMax = some m ∧ m ≠ 0 ∧ (a : ℚ) > m))) ∨
       (∃ allow s, g.appliesTo.sex = some allow ∧ sex = some s ∧ s ≠ "" ∧
          s ∉ allow)) := by
  rw [survives.eq_def]
  cases age with
  | none =>
    simp only [Bool.not_eq_false', Bool.or_eq_true, sexExcluded_iff]
    simp
  | some a =>
    simp only [Bool.not_eq_false', Bool.or_eq_true, sexExcluded_iff,
      ageExcluded_iff]
    simp [← and_or_left]

/-- Witness for C3 (amended): a rule with `ageMin = 35, ageMax = 70` is
excluded for a known age of 16. -/
theorem c3_eligibility_characterization_witness :
    survives (some 16) (some "male")
      { id := "r", source := "s",
        appliesTo := { ageMin := some 35, ageMax := some 70, sex := none },
        trigger := { category := "lab", code := none },
        recommendation := "t", citation := none, referenceRange := none } = false :=
  (c3_eligibility_characterization _ _ _).mpr
    (Or.inl ⟨16, rfl, Or.inl ⟨35, rfl, by norm_num, by norm_num⟩⟩)

/-- C4: for a rule with a reference range, given an observation snapshot
sorted by timestamp descending, the rule's risk signals are exactly one
signal — with `severity = "watch"` and `currentValue` the most recent
matching observation's value — when that value is strictly below the range
minimum or strictly above the range maximum, and none when the value is
within the inclusive bounds.  The head of the trigger filter is indeed a
most recent matching observation. -/
theorem c4_risk_signal_threshold (g : Guideline) (rr : RefRange) (mn mx : ℚ)
    (observations : List Observation) (o : Observation)
    (hsorted : observations.Pairwise fun a b => b.timestamp ≤ a.timestamp)
    (hrr : g.referenceRange = some rr) (hmn : rr.min = some mn)
    (hmx : rr.max = some mx)
    (hhead : (observations.filter (matchesTrigger g)).head? = some o) :
    signalsFor observations g =
      (if o.value < mn ∨ mx < o.value then [mkRiskSignal g rr o] else []) ∧
    (mkRiskSignal g rr o).severity = "watch" ∧
    (mkRiskSignal g rr o).currentValue = o.value ∧
    ∀ o2 ∈ observations.filter (matchesTrigger g), o2.timestamp ≤ o.timestamp := by
  obtain ⟨rest, hfil⟩ : ∃ rest, observations.filter (matchesTrigger g) = o :: rest := by
    cases hf : observations.filter (matchesTrigger g) with
    | nil => rw [hf] at hhead; exact absurd hhead (by simp)
    | cons x xs =>
      rw [hf] at hhead
      simp only [List.head?_cons, Option.some.injEq] at hhead
      exact ⟨xs, by rw [hhead]⟩
  refine ⟨?_, rfl, rfl, ?_⟩
  · rw [signalsFor.eq_def, hfil, hrr]
    simp only [hmn, hmx, Option.isSome_some, Option.getD_some, Bool.true_and]
    by_cases h : o.value < mn ∨ mx < o.value
    · simp [h]
    · push_neg at h
      simp [not_lt.mpr h.1, not_lt.mpr h.2]
  · have hp : (observations.filter (matchesTrigger g)).Pairwise
        (fun a b => b.timestamp ≤ a.timestamp) :=
      List.Pairwise.sublist (List.filter_sublist observations) hsorted
    rw [hfil] at hp
    intro o2 ho2
    rw [hfil] at ho2
    rcases List.mem_cons.mp ho2 with h | h
    · exact h ▸ le_refl _
    · exact (List.pairwise_cons.mp hp).1 o2 h

/-- Fixture for C4's witness: the normal fasting glucose range 70–100. -/
def glucoseRange : RefRange where
  min := some 70
  max := some 100
  unit := "mg/dL"
  label := "Normal fasting: 70-100 mg/dL"

/-- Fixture for C4's witness: the glucose screening rule of the test-suite. -/
def glucoseRule : Guideline where
  id := "uspstf-diabetes-screening"
  source := "USPSTF 2021"
  appliesTo := { ageMin := some 35, ageMax := some 70, sex := some ["male", "female"] }
  trigger := { category := "lab", code := some "glucose" }
  recommendation := "Adults aged 35-70 may benefit from discussing prediabetes screening with a clinician."
  citation := some "https://example.com/uspstf-diabetes"
  referenceRange := some glucoseRange

/-- Fixture for C4's witness: a recent out-of-range glucose observation. -/
def glucoseObsHigh : Observation where
  category := "lab"
  code := "glucose"
  displayName := "Fasting Glucose"
  value := 105
  unit := "mg/dL"
  timestamp := 100

/-- Fixture for C4's witness: an older, in-range glucose observation. -/
def glucoseObsOld : Observation where
  category := "lab"
  code := "glucose"
  displayName := "Fasting Glucose"
  value := 90
  unit := "mg/dL"
  timestamp := 50

/-- Witness for C4 at a concrete descending snapshot: the most recent
glucose value 105 is above the maximum 100, so exactly one watch signal
carrying 105 is emitted. -/
theorem c4_risk_signal_threshold_witness :
    signalsFor [glucoseObsHigh, glucoseObsOld] glucoseRule =
      (if glucoseObsHigh.value < 70 ∨ 100 < glucoseObsHigh.value then
        [mkRiskSignal glucoseRule glucoseRange glucoseObsHigh]
       else []) ∧
    (mkRiskSignal glucoseRule glucoseRange glucoseObsHigh).severity = "watch" ∧
    (mkRiskSignal glucoseRule glucoseRange glucoseObsHigh).currentValue =
      glucoseObsHigh.value ∧
    ∀ o2 ∈ [glucoseObsHigh, glucoseObsOld].filter (matchesTrigger glucoseRule),
      o2.timestamp ≤ glucoseObsHigh.timestamp :=
  c4_risk_signal_threshold glucoseRule glucoseRange 70 100
    [glucoseObsHigh, glucoseObsOld] glucoseObsHigh (by decide) rfl rfl rfl
    (by decide)

/-- C5: every rule that passes the eligibility filters produces exactly one
recommendation — independently of the observation snapshot — and its text
is the rule's recommendation text passed through the safety filter. -/
theorem c5_recommendation_per_surviving_rule (u : User) (gs : List Guideline)
    (obs obs2 : List Observation) (d : SimpleDate) :
    (evaluateGuidelines u gs obs d).recommendations =
      (gs.filter (survives (computedAge u d) u.sex)).map mkRecommendation ∧
    (evaluateGuidelines u gs obs d).recommendations =
      (evaluateGuidelines u gs obs2 d).recommendations ∧
    ∀ g : Guideline, (mkRecommendation g).text = filterSafetyOutput g.recommendation :=
  ⟨rfl, rfl, fun _ => rfl⟩

theorem dedupFirst_cons (q : String) (l : List String) :
    dedupFirst (q :: l) = q :: dedupFirst (l.filter fun x => x ≠ q) := by
  rw [dedupFirst]

theorem dedupFirst_sublist (l : List String) : List.Sublist (dedupFirst l) l := by
  induction l using dedupFirst.induct with
  | case1 => simp [dedupFirst]
  | case2 q rest ih =>
    rw [dedupFirst_cons]
    exact (ih.trans (List.filter_sublist rest)).cons₂ q

theorem dedupFirst_nodup (l : List String) : (dedupFirst l).Nodup := by
  induction l using dedupFirst.induct with
  | case1 => simp [dedupFirst]
  | case2 q rest ih =>
    rw [dedupFirst_cons]
    refine List.nodup_cons.mpr ⟨fun hmem => ?_, ih⟩
    have := (dedupFirst_sublist _).subset hmem
    simp at this

theorem dedupFirst_cons3 (q1 q2 q3 : String) (rest : List String)
    (h21 : q2 ≠ q1) (h31 : q3 ≠ q1) (h32 : q3 ≠ q2) :
    dedupFirst (q1 :: q2 :: q3 :: rest) =
      q1 :: q2 :: q3 ::
        dedupFirst (((rest.filter fun x => x ≠ q1).filter fun x => x ≠ q2).filter
          fun x => x ≠ q3) := by
  rw [dedupFirst_cons, List.filter_cons_of_pos (by simpa using h21),
    List.filter_cons_of_pos (by simpa using h31), dedupFirst_cons,
    List.filter_cons_of_pos (by simpa using h32), dedupFirst_cons]

/-- C6: the question list returned by the evaluator is deduplicated by
exact text, keeps first-seen order (it is a sublist of the accumulated
question list), and never exceeds five entries; for a profile with unknown
age and unknown sex and an empty observation snapshot its first three
entries are exactly the three distinct missing-data questions. -/
theorem c6_question_accumulation :
    (∀ (u : User) (gs : List Guideline) (obs : List Observation) (d : SimpleDate),
      (evaluateGuidelines u gs obs d).questions.length ≤ 5 ∧
      (evaluateGuidelines u gs obs d).questions.Nodup ∧
      List.Sublist (evaluateGuidelines u gs obs d).questions
        (collectedQuestions (computedAge u d) u.sex obs
          (gs.filter (survives (computedAge u d) u.sex)))) ∧
    (∀ (gs : List Guideline) (d : SimpleDate),
      (evaluateGuidelines ⟨none, none⟩ gs [] d).questions.take 3 =
        ["Date of birth is needed for age-based screening recommendations.",
         "Biological sex helps personalize screening guidelines.",
         "No health data uploaded yet. Upload labs, vitals, or other health records to get personalized recommendations."] ∧
      3 ≤ (evaluateGuidelines ⟨none, none⟩ gs [] d).questions.length) := by
  constructor
  · intro u gs obs d
    refine ⟨List.length_take_le 5 _, ?_, ?_⟩
    · exact (dedupFirst_nodup _).sublist (List.take_sublist 5 _)
    · exact (List.take_sublist 5 _).trans (dedupFirst_sublist _)
  · intro gs d
    have hq : (evaluateGuidelines ⟨none, none⟩ gs [] d).questions =
        (dedupFirst
          ("Date of birth is needed for age-based screening recommendations." ::
           "Biological sex helps personalize screening guidelines." ::
           "No health data uploaded yet. Upload labs, vitals, or other health records to get personalized recommendations." ::
           (gs.filter (survives none none)).flatMap (questionsFor []))).take 5 := rfl
    rw [hq, dedupFirst_cons3 _ _ _ _ (by decide) (by decide) (by decide)]
    constructor
    · rw [List.take_take]
      simp [List.take]
    · simp [List.take]

/-! ## Trend engine (`trend.ts`)

`detectTrend` is embedded over exact rationals.  The only use of
`Math.sqrt` is the anomaly test `|latest - mean| > 2 * sd` with
`sd = sqrt(variance)`; since both sides are non-negative this is embedded
as the equivalent rational comparison `(latest - mean)² > 4 * variance`,
and the equivalence with the square-root formulation over `ℝ` is proved
below (`anomalyOf_iff_sqrt`). -/

inductive Trend
  | improving
  | stable
  | declining
deriving DecidableEq, Repr

structure TrendPoint where
  value : ℚ
  timestamp : ℚ
deriving DecidableEq, Repr

structure TrendResult where
  trend : Trend
  slope : ℚ
  movingAverage : ℚ
  anomaly : Bool
deriving DecidableEq, Repr

/-- The sort comparator `(a, b) => a.timestamp.getTime() - b.timestamp.getTime()`:
ascending by timestamp, stable on ties. -/
def trendLe (a b : TrendPoint) : Bool := decide (a.timestamp ≤ b.timestamp)

/-- JavaScript `x || y` on numbers: `x` unless it is (falsy) zero. -/
def jsOr (a b : ℚ) : ℚ := if a = 0 then b else a

/-- `mean = sumY / n`. -/
def meanOf (ys : List ℚ) : ℚ := ys.sum / (ys.length : ℚ)

/-- `variance = Σ (v - mean)² / n` (population variance). -/
def varianceOf (ys : List ℚ) : ℚ :=
  ((ys.map fun v => (v - meanOf ys) ^ 2).sum) / (ys.length : ℚ)

/-- `anomaly = Math.abs(latestValue - mean) > 2 * sd`, squared to stay in
`ℚ` (`sd = Math.sqrt(variance)`; both sides are non-negative). -/
def anomalyOf (ys : List ℚ) : Bool :=
  decide ((ys.getLastD 0 - meanOf ys) ^ 2 > 4 * varianceOf ys)

/-- The ordinary least-squares slope of the values against their indices
`0 … n-1`:
`(n * sumXY - sumX * sumY) / (n * sumX2 - sumX * sumX)`. -/
def slopeOf (ys : List ℚ) : ℚ :=
  let n : ℚ := (ys.length : ℚ)
  let xValues := (List.range ys.length).map fun i => (i : ℚ)
  let sumX := xValues.sum
  let sumY := ys.sum
  let sumXY := ((xValues.zip ys).map fun p => p.1 * p.2).sum
  let sumX2 := (xValues.map fun x => x * x).sum
  (n * sumXY - sumX * sumY) / (n * sumX2 - sumX * sumX)

/-- The moving average over the last `min(7, n)` points
(`yValues.slice(-window)`). -/
def movingAverageOf (ys : List ℚ) : ℚ :=
  let window := min 7 ys.length
  ((ys.drop (ys.length - window)).sum) / (window : ℚ)

/-- `threshold = 0.05 * Math.abs(mean || 1)` and the three-way
classification of the trend. -/
def trendClass (slope mean : ℚ) : Trend :=
  let threshold := 5 / 100 * |jsOr mean 1|
  if |slope| < threshold then Trend.stable
  else if slope > 0 then Trend.improving
  else Trend.declining

/-- The `TrendResult` computed from the timestamp-sorted series. -/
def trendOfSorted (sorted : List TrendPoint) : TrendResult :=
  let yValues := sorted.map fun v => v.value
  { trend := trendClass (slopeOf yValues) (meanOf yValues)
    slope := slopeOf yValues
    movingAverage := movingAverageOf yValues
    anomaly := anomalyOf yValues }

/-- `detectTrend` from `trend.ts`: `null` below 2 points, otherwise the
statistics of the series sorted ascending by timestamp (the sort operates
on the copy `[...values]`; see `detectTrendHeap` for the aliasing view). -/
def detectTrend (values : List TrendPoint) : Option TrendResult :=
  if values.length < 2 then none
  else some (trendOfSorted (values.mergeSort trendLe))

/-- The value series of the sorted input, as used by `detectTrend`. -/
def sortedValues (values : List TrendPoint) : List ℚ :=
  (values.mergeSort trendLe).map fun v => v.value

/-- C9: `detectTrend` returns `null` exactly for series of fewer than two
points, and a `TrendResult` for every series of at least two points; being
a total function of the embedding, it throws no exception. -/
theorem c9_short_series_null (values : List TrendPoint) :
    (detectTrend values = none ↔ values.length < 2) ∧
    ((detectTrend values).isSome ↔ 2 ≤ values.length) := by
  unfold detectTrend
  by_cases h : values.length < 2 <;> simp [h] <;> omega

/-- A list already in chronological order is left unchanged by the sort. -/
theorem mergeSort_of_chain (l : List TrendPoint)
    (h : List.Chain' (fun a b => a.timestamp ≤ b.timestamp) l) :
    l.mergeSort trendLe = l := by
  apply List.mergeSort_of_sorted
  haveI : IsTrans TrendPoint (fun a b => trendLe a b = true) :=
    ⟨fun a b c hab hbc => by
      simp only [trendLe, decide_eq_true_eq] at *
      exact le_trans hab hbc⟩
  rw [← List.chain'_iff_pairwise]
  exact h.imp fun hab => by simpa [trendLe] using hab

theorem slopeOf5 (y0 y1 y2 y3 y4 : ℚ) :
    slopeOf [y0, y1, y2, y3, y4] = (2 * y4 + y3 - y1 - 2 * y0) / 10 := by
  unfold slopeOf
  norm_num [List.range_succ]
  ring_nf

theorem meanOf5 (y0 y1 y2 y3 y4 : ℚ) :
    meanOf [y0, y1, y2, y3, y4] = (y0 + y1 + y2 + y3 + y4) / 5 := by
  simp [meanOf]
  ring_nf

theorem movingAverageOf5 (y0 y1 y2 y3 y4 : ℚ) :
    movingAverageOf [y0, y1, y2, y3, y4] = (y0 + y1 + y2 + y3 + y4) / 5 := by
  simp [movingAverageOf]
  ring_nf

theorem trendOfSorted5_eq (y0 y1 y2 y3 y4 t0 t1 t2 t3 t4 : ℚ) :
    trendOfSorted [⟨y0, t0⟩, ⟨y1, t1⟩, ⟨y2, t2⟩, ⟨y3, t3⟩, ⟨y4, t4⟩] =
      TrendResult.mk (trendClass (slopeOf [y0, y1, y2, y3, y4]) (meanOf [y0, y1, y2, y3, y4]))
        (slopeOf [y0, y1, y2, y3, y4]) (movingAverageOf [y0, y1, y2, y3, y4])
        (anomalyOf [y0, y1, y2, y3, y4]) := rfl

theorem trendClass_zero (mean : ℚ) : trendClass 0 mean = Trend.stable := by
  unfold trendClass jsOr
  by_cases h : mean = 0 <;> simp [h, abs_pos] <;> norm_num

/-- C7, counterexample: the claim says every strictly increasing series of
5 points yields `trend = "improving"`.  The series 100,101,102,103,104 is
strictly increasing (in time order), its slope is the positive value 1,
but `0.05 * |mean| = 5.1` exceeds the slope, so `detectTrend` classifies
it as `"stable"`, not `"improving"`. -/
theorem c7_counterexample :
    List.Chain' (fun a b => a.value < b.value ∧ a.timestamp < b.timestamp)
      [⟨100, 0⟩, ⟨101, 1⟩, ⟨102, 2⟩, ⟨103, 3⟩, (⟨104, 4⟩ : TrendPoint)] ∧
    detectTrend [⟨100, 0⟩, ⟨101, 1⟩, ⟨102, 2⟩, ⟨103, 3⟩, ⟨104, 4⟩] =
      some (TrendResult.mk Trend.stable 1 102 false) := by
  constructor
  · simp only [List.chain'_cons, List.chain'_singleton, and_true]
    norm_num
  · unfold detectTrend
    rw [mergeSort_of_chain _ (by simp only [List.chain'_cons,
        List.chain'_singleton, and_true]; norm_num)]
    norm_num [trendOfSorted5_eq]
    have hs : slopeOf [(100 : ℚ), 101, 102, 103, 104] = 1 := by
      rw [slopeOf5]; norm_num
    have hm : meanOf [(100 : ℚ), 101, 102, 103, 104] = 102 := by
      rw [meanOf5]; norm_num
    have hma : movingAverageOf [(100 : ℚ), 101, 102, 103, 104] = 102 := by
      rw [movingAverageOf5]; norm_num
    have han : anomalyOf [(100 : ℚ), 101, 102, 103, 104] = false := by
      unfold anomalyOf varianceOf
      rw [meanOf5]
      norm_num
    have ht : trendClass 1 102 = Trend.stable := by
      unfold trendClass jsOr
      norm_num
    rw [hs, hm, hma, han, ht]
    exact ⟨rfl, rfl, rfl, rfl⟩

/-- C7, amended: for a 5-point series given in chronological order, a
strictly increasing value series always has a strictly positive slope and
is classified `"improving"` exactly when the slope's absolute value
reaches the threshold `0.05 * |mean ‖ 1|` — otherwise `"stable"`; a
strictly decreasing series has negative slope and is `"declining"` under
the same threshold condition; a constant series has slope 0 and is always
`"stable"`. -/
theorem c7_trend_sign_amended :
    (∀ (y0 y1 y2 y3 y4 t0 t1 t2 t3 t4 : ℚ) (r : TrendResult),
      t0 ≤ t1 → t1 ≤ t2 → t2 ≤ t3 → t3 ≤ t4 →
      y0 < y1 → y1 < y2 → y2 < y3 → y3 < y4 →
      detectTrend [⟨y0, t0⟩, ⟨y1, t1⟩, ⟨y2, t2⟩, ⟨y3, t3⟩, ⟨y4, t4⟩] = some r →
      0 < r.slope ∧
        r.trend = (if |r.slope| < 5 / 100 * |jsOr (meanOf [y0, y1, y2, y3, y4]) 1|
          then Trend.stable else Trend.improving)) ∧
    (∀ (y0 y1 y2 y3 y4 t0 t1 t2 t3 t4 : ℚ) (r : TrendResult),
      t0 ≤ t1 → t1 ≤ t2 → t2 ≤ t3 → t3 ≤ t4 →
      y1 < y0 → y2 < y1 → y3 < y2 → y4 < y3 →
      detectTrend [⟨y0, t0⟩, ⟨y1, t1⟩, ⟨y2, t2⟩, ⟨y3, t3⟩, ⟨y4, t4⟩] = some r →
      r.slope < 0 ∧
        r.trend = (if |r.slope| < 5 / 100 * |jsOr (meanOf [y0, y1, y2, y3, y4]) 1|
          then Trend.stable else Trend.declining)) ∧
    (∀ (c t0 t1 t2 t3 t4 : ℚ) (r : TrendResult),
      t0 ≤ t1 → t1 ≤ t2 → t2 ≤ t3 → t3 ≤ t4 →
      detectTrend [⟨c, t0⟩, ⟨c, t1⟩, ⟨c, t2⟩, ⟨c, t3⟩, ⟨c, t4⟩] = some r →
      r.slope = 0 ∧ r.trend = Trend.stable) := by
  refine ⟨?_, ?_, ?_⟩
  · intro y0 y1 y2 y3 y4 t0 t1 t2 t3 t4 r ht01 ht12 ht23 ht34 h0 h1 h2 h3 hdet
    unfold detectTrend at hdet
    rw [mergeSort_of_chain _ (by
      simp only [List.chain'_cons, List.chain'_singleton, and_true]
      exact ⟨ht01, ht12, ht23, ht34⟩)] at hdet
    norm_num at hdet
    subst hdet
    have hpos : 0 < slopeOf [y0, y1, y2, y3, y4] := by
      rw [slopeOf5]
      apply div_pos (by linarith) (by norm_num)
    refine ⟨hpos, ?_⟩
    show trendClass (slopeOf [y0, y1, y2, y3, y4]) (meanOf [y0, y1, y2, y3, y4]) =
      (if |slopeOf [y0, y1, y2, y3, y4]| <
          5 / 100 * |jsOr (meanOf [y0, y1, y2, y3, y4]) 1|
        then Trend.stable else Trend.improving)
    simp only [trendClass]
    by_cases hc : |slopeOf [y0, y1, y2, y3, y4]| <
        5 / 100 * |jsOr (meanOf [y0, y1, y2, y3, y4]) 1|
    · rw [if_pos hc, if_pos hc]
    · rw [if_neg hc, if_neg hc, if_pos hpos]
  · intro y0 y1 y2 y3 y4 t0 t1 t2 t3 t4 r ht01 ht12 ht23 ht34 h0 h1 h2 h3 hdet
    unfold detectTrend at hdet
    rw [mergeSort_of_chain _ (by
      simp only [List.chain'_cons, List.chain'_singleton, and_true]
      exact ⟨ht01, ht12, ht23, ht34⟩)] at hdet
    norm_num at hdet
    subst hdet
    have hneg : slopeOf [y0, y1, y2, y3, y4] < 0 := by
      rw [slopeOf5]
      apply div_neg_of_neg_of_pos (by linarith) (by norm_num)
    refine ⟨hneg, ?_⟩
    show trendClass (slopeOf [y0, y1, y2, y3, y4]) (meanOf [y0, y1, y2, y3, y4]) =
      (if |slopeOf [y0, y1, y2, y3, y4]| <
          5 / 100 * |jsOr (meanOf [y0, y1, y2, y3, y4]) 1|
        then Trend.stable else Trend.declining)
    simp only [trendClass]
    by_cases hc : |slopeOf [y0, y1, y2, y3, y4]| <
        5 / 100 * |jsOr (meanOf [y0, y1, y2, y3, y4]) 1|
    · rw [if_pos hc, if_pos hc]
    · rw [if_neg hc, if_neg hc, if_neg (not_lt.mpr hneg.le)]
  · intro c t0 t1 t2 t3 t4 r ht01 ht12 ht23 ht34 hdet
    unfold detectTrend at hdet
    rw [mergeSort_of_chain _ (by
      simp only [List.chain'_cons, List.chain'_singleton, and_true]
      exact ⟨ht01, ht12, ht23, ht34⟩)] at hdet
    norm_num at hdet
    subst hdet
    have hz : slopeOf [c, c, c, c, c] = 0 := by rw [slopeOf5]; ring
    constructor
    · exact hz
    · show trendClass (slopeOf [c, c, c, c, c]) (meanOf [c, c, c, c, c]) = Trend.stable
      rw [hz, trendClass_zero]

/-- Witness for C7 (amended), applying all three parts at the concrete
series 0,1,2,3,4 (increasing), 4,3,2,1,0 (decreasing) and the constant
series 7, each at timestamps 0…4. -/
theorem c7_trend_sign_amended_witness :
    (0 < (trendOfSorted ([⟨0, 0⟩, ⟨1, 1⟩, ⟨2, 2⟩, ⟨3, 3⟩,
        (⟨4, 4⟩ : TrendPoint)].mergeSort trendLe)).slope ∧
      (trendOfSorted ([⟨0, 0⟩, ⟨1, 1⟩, ⟨2, 2⟩, ⟨3, 3⟩,
          (⟨4, 4⟩ : TrendPoint)].mergeSort trendLe)).trend =
        (if |(trendOfSorted ([⟨0, 0⟩, ⟨1, 1⟩, ⟨2, 2⟩, ⟨3, 3⟩,
            (⟨4, 4⟩ : TrendPoint)].mergeSort trendLe)).slope| <
            5 / 100 * |jsOr (meanOf [0, 1, 2, 3, 4]) 1|
         then Trend.stable else Trend.improving)) ∧
    (trendOfSorted ([⟨4, 0⟩, ⟨3, 1⟩, ⟨2, 2⟩, ⟨1, 3⟩,
        (⟨0, 4⟩ : TrendPoint)].mergeSort trendLe)).slope < 0 ∧
    (trendOfSorted ([⟨7, 0⟩, ⟨7, 1⟩, ⟨7, 2⟩, ⟨7, 3⟩,
        (⟨7, 4⟩ : TrendPoint)].mergeSort trendLe)).trend = Trend.stable :=
  ⟨c7_trend_sign_amended.1 0 1 2 3 4 0 1 2 3 4 _ (by norm_num) (by norm_num)
      (by norm_num) (by norm_num) (by norm_num) (by norm_num) (by norm_num)
      (by norm_num) rfl,
   (c7_trend_sign_amended.2.1 4 3 2 1 0 0 1 2 3 4 _ (by norm_num) (by norm_num)
      (by norm_num) (by norm_num) (by norm_num) (by norm_num) (by norm_num)
      (by norm_num) rfl).1,
   (c7_trend_sign_amended.2.2 7 0 1 2 3 4 _ (by norm_num) (by norm_num)
      (by norm_num) (by norm_num) rfl).2⟩

theorem varianceOf_nonneg (ys : List ℚ) : 0 ≤ varianceOf ys := by
  unfold varianceOf
  apply div_nonneg
  · apply List.sum_nonneg
    intro x hx
    simp only [List.mem_map] at hx
    obtain ⟨v, _, rfl⟩ := hx
    positivity
  · exact Nat.cast_nonneg _

/-- `d² > 4v` is `|d| > 2√v` for non-negative `v`: the exact-rational
anomaly test of the embedding is the source's
`Math.abs(latest - mean) > 2 * Math.sqrt(variance)`. -/
theorem sq_gt_four_iff (d v : ℝ) (hv : 0 ≤ v) :
    d ^ 2 > 4 * v ↔ |d| > 2 * Real.sqrt v := by
  have h4 : 4 * v = (2 * Real.sqrt v) ^ 2 := by
    rw [mul_pow, Real.sq_sqrt hv]
    norm_num
  rw [gt_iff_lt, gt_iff_lt, h4, sq_lt_sq, abs_of_nonneg (by positivity)]

/-- C8: `detectTrend` flags `anomaly = true` exactly when the
chronologically latest value (the last of the timestamp-sorted series)
deviates from the population mean of the full series by strictly more than
two population standard deviations. -/
theorem c8_anomaly_iff (values : List TrendPoint) (r : TrendResult)
    (h : detectTrend values = some r) :
    (r.anomaly = true ↔
      |((sortedValues values).getLastD 0 : ℝ) -
          (meanOf (sortedValues values) : ℝ)| >
        2 * Real.sqrt (varianceOf (sortedValues values) : ℝ)) := by
  have hr : r = trendOfSorted (values.mergeSort trendLe) := by
    unfold detectTrend at h
    split at h
    · exact absurd h (by simp)
    · simp only [Option.some.injEq] at h
      exact h.symm
  subst hr
  show anomalyOf (sortedValues values) = true ↔ _
  unfold anomalyOf
  rw [decide_eq_true_eq]
  have hv : (0 : ℝ) ≤ ((varianceOf (sortedValues values) : ℚ) : ℝ) := by
    exact_mod_cast varianceOf_nonneg _
  constructor
  · intro hq
    have hcast : (((sortedValues values).getLastD 0 : ℝ) -
        (meanOf (sortedValues values) : ℝ)) ^ 2 >
        4 * ((varianceOf (sortedValues values) : ℚ) : ℝ) := by
      exact_mod_cast hq
    exact (sq_gt_four_iff _ _ hv).mp hcast
  · intro hb
    have hcast := (sq_gt_four_iff _ _ hv).mpr hb
    exact_mod_cast hcast

/-- Fixture for C8's witness: five equal values followed by a spike, in
chronological order. -/
def anomalySeries : List TrendPoint :=
  [⟨10, 0⟩, ⟨10, 1⟩, ⟨10, 2⟩, ⟨10, 3⟩, ⟨10, 4⟩, ⟨100, 5⟩]

/-- Witness for C8 at the spike series of the repository's own test-suite. -/
theorem c8_anomaly_iff_witness :
    ((trendOfSorted (anomalySeries.mergeSort trendLe)).anomaly = true ↔
      |((sortedValues anomalySeries).getLastD 0 : ℝ) -
          (meanOf (sortedValues anomalySeries) : ℝ)| >
        2 * Real.sqrt (varianceOf (sortedValues anomalySeries) : ℝ)) :=
  c8_anomaly_iff anomalySeries _ rfl

/-! ### Aliasing view of `detectTrend` (for the frame property)

JavaScript arrays are mutable references and `Array.prototype.sort` sorts
in place.  To state that `detectTrend` never mutates its argument, the
store of arrays is modelled explicitly: a list of arrays indexed by
reference, the spread `[...values]` as allocation of a fresh reference,
and `.sort()` as an in-place update of the reference it is called on.  The
source sorts only the freshly allocated copy, so the caller's reference is
untouched — had it called `values.sort(…)`, the first component of the
theorem below would fail. -/

/-- `detectTrend` acting on a store `h` of arrays, reading its input from
reference `r`: returns the result together with the store after the call. -/
def detectTrendHeap (h : List (List TrendPoint)) (r : Nat) :
    Option TrendResult × List (List TrendPoint) :=
  let values := h.getD r []
  if values.length < 2 then (none, h)
  else
    let rCopy := h.length
    let h1 := h ++ [values]
    let h2 := h1.set rCopy ((h1.getD rCopy []).mergeSort trendLe)
    (some (trendOfSorted (h2.getD rCopy [])), h2)

/-- C10: after a call of `detectTrend` the caller's array holds the same
(value, timestamp) pairs in the same order as before — the sort happens on
the freshly allocated copy — and the result agrees with the pure
embedding. -/
theorem c10_no_mutation (h : List (List TrendPoint)) (r : Nat) :
    ((detectTrendHeap h r).2.getD r [] = h.getD r []) ∧
    (detectTrendHeap h r).1 = detectTrend (h.getD r []) := by
  unfold detectTrendHeap detectTrend
  dsimp only
  by_cases hlen : (h.getD r []).length < 2
  · rw [if_pos hlen, if_pos hlen]
    exact ⟨rfl, rfl⟩
  · rw [if_neg hlen, if_neg hlen]
    have hr : r < h.length := by
      by_contra hge
      push_neg at hge
      have hempty : h.getD r [] = [] := by
        rw [List.getD_eq_getElem?_getD, List.getElem?_eq_none hge]
        rfl
      rw [hempty] at hlen
      simp at hlen
    have h1get : (h ++ [h.getD r []]).getD h.length [] = h.getD r [] := by
      rw [List.getD_eq_getElem?_getD, List.getElem?_concat_length]
      rfl
    rw [h1get]
    constructor
    · show ((h ++ [h.getD r []]).set h.length
          ((h.getD r []).mergeSort trendLe)).getD r [] = h.getD r []
      rw [List.getD_eq_getElem?_getD, List.getD_eq_getElem?_getD,
        List.getElem?_set_ne (by omega), List.getElem?_append_left hr]
    · show some (trendOfSorted (((h ++ [h.getD r []]).set h.length
          ((h.getD r []).mergeSort trendLe)).getD h.length [])) = _
      have h2get : ((h ++ [h.getD r []]).set h.length
            ((h.getD r []).mergeSort trendLe)).getD h.length [] =
          (h.getD r []).mergeSort trendLe := by
        rw [List.getD_eq_getElem?_getD, List.getElem?_set_self (by
          simp only [List.length_append, List.length_cons, List.length_nil]
          omega)]
        rfl
      rw [h2get]

end PM
